import Mathlib

/-!
Verification of the failure-test-utils repository: the probabilistic
failure generator (`failuregen/failure_generator.go`), the file-backed
assured-failure plan (`failuregen`, modelled from the spec), and the
fault-injecting TCP relay (`tcpproxy/tcpproxy.go`).

Modelling conventions:
* Go `float32` probabilities are modelled as exact rationals; the Go
  comparisons on them coincide with the rational order on the values.
* `int32` values are modelled as `Int`; none of the verified code paths
  can overflow 32 bits (ppm values lie in [0, 1000000]).
* `rand.Int31n(n)` is modelled by an adversarially chosen draw `d : Int`
  reduced as `d % n`; for n > 0 the `Int` emod of Lean yields a value in
  [0, n), exactly the range of `rand.Int31n`.  `rand.Int31n(n)` panics
  in Go when n <= 0, which the model renders as `none`.
* A `FailMaybe` call that returns normally is `some (delay?, failed)`;
  `none` models an abnormal termination (Go runtime panic).
-/

namespace FailureTestUtils

/-- `OneMillion` from `failure_generator.go`. -/
def OneMillion : Int := 1000000

/-- `DelayConfig` from `failure_generator.go`; `DelayProbability float32`
is modelled as a rational. -/
structure DelayConfig where
  maxDelayMicros : Int
  delayProbability : ℚ

/-- The mutable ppm state of `FailureGeneratorImpl` (three atomic int32
fields). -/
structure FailureGeneratorImpl where
  failurePpm : Int
  delayPpm : Int
  maxDelayMicros : Int
deriving DecidableEq, Repr

/-- `NewFailureGenerator`: atomic int32 fields start at their zero value. -/
def newFailureGenerator : FailureGeneratorImpl := ⟨0, 0, 0⟩

/-- `ppm` from `failure_generator.go`: rejects p outside [0, 1], otherwise
converts to integer parts-per-million.  the Go `int32(p * 1e6)` truncates
toward zero, which for p ≥ 0 is the floor. -/
def ppm (p : ℚ) : Except String Int :=
  if p < 0 ∨ p > 1 then Except.error "Invalid probability not in [0.0, 1.0]"
  else Except.ok ⌊p * 1000000⌋

/-- `SetDelayConfig`: validates the probability first, then the delay bound;
stores both fields only when both checks pass.  The pair returned is
(state after the call, error if any). -/
def setDelayConfig (fg : FailureGeneratorImpl) (c : DelayConfig) :
    FailureGeneratorImpl × Option String :=
  match ppm c.delayProbability with
  | Except.error e => (fg, some e)
  | Except.ok delayPpm =>
    if c.maxDelayMicros < 0 then
      (fg, some "Invalid delay in microseconds")
    else
      ({ fg with delayPpm := delayPpm, maxDelayMicros := c.maxDelayMicros }, none)

/-- `SetFailureProbability`: stores the ppm value only when `ppm` accepts. -/
def setFailureProbability (fg : FailureGeneratorImpl) (p : ℚ) :
    FailureGeneratorImpl × Option String :=
  match ppm p with
  | Except.error e => (fg, some e)
  | Except.ok failurePpm => ({ fg with failurePpm := failurePpm }, none)

/-- the Go `rand.Int31n n`: panics (modelled `none`) when n ≤ 0, otherwise a
value in [0, n), obtained here from the adversarial draw. -/
def int31n (n : Int) (draw : Int) : Option Int :=
  if n ≤ 0 then none else some (draw % n)

/-- `FailMaybe` from `failure_generator.go`, with the three `rand` draws made
explicit (delay trial, delay magnitude, failure trial).  Result `none` is a
runtime panic; `some (d?, b)` returns normally, sleeping `d?` microseconds
when the delay trial fired, and returns `errInjectedFailure` iff `b`. -/
def failMaybe (fg : FailureGeneratorImpl) (dDelay dMag dFail : Int) :
    Option (Option Int × Bool) :=
  if dDelay % OneMillion < fg.delayPpm then
    match int31n fg.maxDelayMicros dMag with
    | none => none
    | some delayMicros =>
        some (some delayMicros, decide (dFail % OneMillion < fg.failurePpm))
  else
    some (none, decide (dFail % OneMillion < fg.failurePpm))

/-- The state of the assured-failure plan backing file at the moment of a
query: absent, present but not parsing as a JSON list of strings, or
parsing as a list of failure-point identifiers (an empty file counts as the
empty list, per the external-interface section of the spec). -/
inductive PlanFileState
| absent
| malformed
| valid (points : List String)
deriving DecidableEq, Repr

/-- Modelled from the spec: `AssuredFailurePlanImpl.FailMaybe` of the
`failuregen` package (its source file `assured_failure.go` is not in the
repository snapshot; only its tests are).  Per the spec: re-reads the file
on every call; absent file → success; well-formed list → fail iff the
queried point is a member; malformed file → fail unconditionally.  The
plan object keeps no state, so the call is a pure function of the file
state and the queried point; `some e` is the injected-failure error. -/
def AssuredFailurePlan.FailMaybe (file : PlanFileState) (point : String) :
    Option String :=
  match file with
  | PlanFileState.absent => none
  | PlanFileState.malformed => some "Injected failure"
  | PlanFileState.valid points =>
      if point ∈ points then some "Injected failure" else none

/-- A sequence of plan queries, each against the file state observed at that
call (the plan re-reads the file fresh each time); `true` records an
injected failure. -/
def planCalls (calls : List (PlanFileState × String)) : List Bool :=
  calls.map (fun c => (AssuredFailurePlan.FailMaybe c.1 c.2).isSome)

/-- `ProxyStats` from `tcpproxy.go`: the active-connection gauge and the two
drop counters (all atomic). -/
structure ProxyStats where
  activeConnCtr : Int
  frontendDropCtr : Int
  backendDropCtr : Int
deriving DecidableEq, Repr

/-- `testTCPProxy.closeFrontendConn`: closes the socket, records a frontend
drop when the reason is "drop", and decrements the active-connection
gauge (in that order). -/
def closeFrontendConn (reason : String) (st : ProxyStats) : ProxyStats :=
  let st1 :=
    if reason = "drop" then
      { st with frontendDropCtr := st.frontendDropCtr + 1 }
    else st
  { st1 with activeConnCtr := st1.activeConnCtr - 1 }

/-- The body of the successful-accept branch of `testTCPProxy.serve` for one
accepted connection.  `acceptFailed` is whether `acceptFg.FailMaybe()`
returned an error.  In the source the drop branch has no `continue` and no
`else`: after `closeFrontendConn(conn, "drop")` control falls through to
`wg.Add(1)`, the gauge increment, and the `go` statement spawning
`t.handle(conn)` — so the returned flag (connection handed to a handler)
is literally `true` on both paths. -/
def serveAccepted (acceptFailed : Bool) (st : ProxyStats) : ProxyStats × Bool :=
  let st1 := if acceptFailed then closeFrontendConn "drop" st else st
  ({ st1 with activeConnCtr := st1.activeConnCtr + 1 }, true)

/-- the deferred cleanup in `testTCPProxy.handle` of the frontend connection:
`closeFrontendConn(frontendConn, "")`. -/
def handleCleanup (st : ProxyStats) : ProxyStats :=
  closeFrontendConn "" st

/-- The receive-time failure generator as the relay sees it: either it also
satisfies the `ConditionalFailureGenerator` capability interface or it does
not.  `FailOnCondition` (whose implementation is outside the snapshot) is
modelled per the spec as failing iff a predicate of the supplied bytes
holds; `failResult` is the outcome of `FailMaybe()` at this call. -/
inductive RecvFg
| plain (failResult : Bool)
| withCondition (cond : List Nat → Bool) (failResult : Bool)

/-- Everything observable about one failure-injection consultation in
`testTCPProxy.copy` after a successful non-empty read: the stats
afterwards, whether the loop returns an error, the exact byte list passed
to `FailOnCondition` (if consulted), and whether plain `FailMaybe` was
consulted. -/
structure ConsultResult where
  stats : ProxyStats
  loopError : Bool
  condBytes : Option (List Nat)
  failMaybeConsulted : Bool
deriving DecidableEq

/-- The failure-injection consultation in `testTCPProxy.copy` (the block
after the `nr == 0` check).  `buf` is the whole 1024-byte relay buffer
after the read, `nr` the byte count the read returned.  The source checks
the capability with a type assertion and, when present, calls
`condFailGen.FailOnCondition(buf)` — passing `buf`, the full buffer, not
`buf[:nr]`; on a returned error it increments `backendDropCtr` and returns.
Otherwise it calls `t.recvFg.FailMaybe()` with the same error handling. -/
def recvConsult (fg : RecvFg) (buf : List Nat) (nr : Nat) (st : ProxyStats) :
    ConsultResult :=
  match fg with
  | RecvFg.withCondition cond _ =>
      if cond buf then
        ⟨{ st with backendDropCtr := st.backendDropCtr + 1 }, true, some buf, false⟩
      else
        ⟨st, false, some buf, false⟩
  | RecvFg.plain failResult =>
      if failResult then
        ⟨{ st with backendDropCtr := st.backendDropCtr + 1 }, true, none, true⟩
      else
        ⟨st, false, none, true⟩

/-- The classification of the error value returned by `src.Read` in
`testTCPProxy.copy`: no error, a `net.OpError` with `Timeout()`, `io.EOF`,
or any other error. -/
inductive ReadErr
| noErr
| timeout
| eof
| other
deriving DecidableEq, Repr

/-- What one iteration of `testTCPProxy.copy` does with the read result
before any failure injection. -/
inductive CopyStep
| recheck
| done
| failed
| relay
deriving DecidableEq, Repr

/-- The read-result dispatch of `testTCPProxy.copy`, mirroring the control flow of
the source: a non-nil error that is a timeout → `continue` (back to the
select that re-checks the termination signals); a non-nil error other than
`io.EOF` → return the error; then `nr == 0` → return nil; otherwise
proceed to the failure-injection consultation and the write. -/
def readDispatch (nr : Nat) (e : ReadErr) : CopyStep :=
  if e ≠ ReadErr.noErr then
    if e = ReadErr.timeout then CopyStep.recheck
    else if e ≠ ReadErr.eof then CopyStep.failed
    else if nr = 0 then CopyStep.done else CopyStep.relay
  else if nr = 0 then CopyStep.done else CopyStep.relay

/-- `testTCPProxy.BlockIncomingConns`: sets the accept-time-generator
failure probability to 1.0 (the returned error is ignored in the source). -/
def blockIncomingConns (acceptFg : FailureGeneratorImpl) : FailureGeneratorImpl :=
  (setFailureProbability acceptFg 1).1

/-! Helper lemmas shared by the claim theorems. -/

theorem emod_million_nonneg (d : Int) : 0 ≤ d % OneMillion :=
  Int.emod_nonneg d (by norm_num [OneMillion])

theorem emod_million_lt (d : Int) : d % OneMillion < OneMillion :=
  Int.emod_lt_of_pos d (by norm_num [OneMillion])

/-- If `failMaybe` returns normally, its failure component is exactly the
failure trial against the stored ppm. -/
theorem failMaybe_snd (fg : FailureGeneratorImpl) (dDelay dMag dFail : Int)
    (r : Option Int × Bool) (h : failMaybe fg dDelay dMag dFail = some r) :
    r.2 = decide (dFail % OneMillion < fg.failurePpm) := by
  unfold failMaybe at h
  by_cases hd : dDelay % OneMillion < fg.delayPpm
  · rw [if_pos hd] at h
    cases hm : int31n fg.maxDelayMicros dMag <;> rw [hm] at h
    · exact Option.noConfusion h
    · cases Option.some.inj h
      rfl
  · rw [if_neg hd] at h
    cases Option.some.inj h
    rfl

/-- Probability 1.0 converts to one million ppm. -/
theorem ppm_one : ppm 1 = Except.ok 1000000 := by
  unfold ppm
  rw [if_neg (by norm_num)]
  norm_num

/-- A generator whose delay ppm and failure ppm are both zero neither
delays, nor fails, nor aborts. -/
theorem failMaybe_of_zero (fg : FailureGeneratorImpl) (h1 : fg.delayPpm = 0)
    (h2 : fg.failurePpm = 0) (dDelay dMag dFail : Int) :
    failMaybe fg dDelay dMag dFail = some (none, false) := by
  unfold failMaybe
  rw [if_neg (by rw [h1]; exact not_lt.mpr (emod_million_nonneg dDelay))]
  rw [h2]
  simp [not_lt.mpr (emod_million_nonneg dFail)]

/-! The claim theorems. -/

/-- C1: for every failure point and every file state at call time,
`FailMaybe` succeeds when the file is absent; when the file parses as a
list of failure-point identifiers (including the empty list) it fails iff
the point is a member of the list; and a call in any sequence of calls
depends only on the file state and point of that call (no in-memory
caching). -/
theorem assuredPlan_failMaybe_spec (point : String) (file : PlanFileState) :
    (file = PlanFileState.absent →
      AssuredFailurePlan.FailMaybe file point = none)
    ∧ (∀ points, file = PlanFileState.valid points →
        ((AssuredFailurePlan.FailMaybe file point).isSome ↔ point ∈ points))
    ∧ (∀ calls : List (PlanFileState × String),
        planCalls (calls ++ [(file, point)])
          = planCalls calls ++ [(AssuredFailurePlan.FailMaybe file point).isSome]) := by
  refine ⟨?_, ?_, ?_⟩
  · rintro rfl
    rfl
  · rintro points rfl
    by_cases h : point ∈ points <;>
      simp [AssuredFailurePlan.FailMaybe, h]
  · intro calls
    simp [planCalls]

/-- Witness for C1: a plan file listing points "A" and "B" makes the query
for "A" fail. -/
theorem assuredPlan_failMaybe_spec_witness :
    (AssuredFailurePlan.FailMaybe (PlanFileState.valid ["A", "B"]) "A").isSome :=
  ((assuredPlan_failMaybe_spec "A" (PlanFileState.valid ["A", "B"])).2.1
    ["A", "B"] rfl).mpr (by simp)

/-- C2: a malformed plan file makes `FailMaybe` return the injected-failure
error for every point, including identifiers never registered. -/
theorem assuredPlan_malformed_fails_all (point : String) :
    (AssuredFailurePlan.FailMaybe PlanFileState.malformed point).isSome := rfl

/-- C3 counterexample: the claim says exactly the just-read `nr` bytes are
passed to `FailOnCondition`; in the source the whole 1024-byte buffer is
passed.  Concretely, with a zeroed 1024-byte buffer and a read of 2 bytes,
the bytes handed to `FailOnCondition` are not the first 2 bytes. -/
theorem recvConsult_passes_whole_buffer :
    ¬ ((recvConsult (RecvFg.withCondition (fun _ => false) false)
          (List.replicate 1024 0) 2 ⟨0, 0, 0⟩).condBytes
        = some ((List.replicate 1024 0).take 2)) := by
  intro h
  have h2 : List.replicate 1024 (0 : Nat)
      = (List.replicate 1024 (0 : Nat)).take 2 := by
    simp only [recvConsult] at h
    exact Option.some.inj h
  have h3 := congrArg List.length h2
  rw [List.length_replicate, List.length_take, List.length_replicate] at h3
  exact absurd h3 (by decide)

/-- C3 amended: after a successful non-empty read, if the receive-time
generator exposes the content-conditioned capability then the full read
buffer (whose first `nr` entries are the just-read bytes) is passed to
`FailOnCondition` and the plain probabilistic check is not consulted;
otherwise `FailMaybe` is consulted; whenever the consulted check signals
failure the backend-drop counter is incremented by one and the loop ends
with an error, and otherwise the stats are untouched. -/
theorem recvConsult_spec (cond : List Nat → Bool) (failResult : Bool)
    (buf : List Nat) (nr : Nat) (st : ProxyStats) :
    ((recvConsult (RecvFg.withCondition cond failResult) buf nr st).condBytes
        = some buf
     ∧ (recvConsult (RecvFg.withCondition cond failResult) buf nr
          st).failMaybeConsulted = false
     ∧ (recvConsult (RecvFg.withCondition cond failResult) buf nr st).loopError
        = cond buf
     ∧ (cond buf = true →
         (recvConsult (RecvFg.withCondition cond failResult) buf nr st).stats
           = { st with backendDropCtr := st.backendDropCtr + 1 })
     ∧ (cond buf = false →
         (recvConsult (RecvFg.withCondition cond failResult) buf nr st).stats
           = st))
    ∧ ((recvConsult (RecvFg.plain failResult) buf nr st).condBytes = none
     ∧ (recvConsult (RecvFg.plain failResult) buf nr st).failMaybeConsulted
        = true
     ∧ (recvConsult (RecvFg.plain failResult) buf nr st).loopError = failResult
     ∧ (failResult = true →
         (recvConsult (RecvFg.plain failResult) buf nr st).stats
           = { st with backendDropCtr := st.backendDropCtr + 1 })
     ∧ (failResult = false →
         (recvConsult (RecvFg.plain failResult) buf nr st).stats = st)) := by
  constructor
  · cases h : cond buf <;> simp [recvConsult, h]
  · cases failResult <;> simp [recvConsult]

/-- Witness for C3 amended: a condition that holds on the buffer increments
the backend-drop counter from 0 to 1. -/
theorem recvConsult_spec_witness :
    (recvConsult (RecvFg.withCondition (fun _ => true) false) [1] 1
      ⟨0, 0, 0⟩).stats = ⟨0, 0, 1⟩ := by
  have h := (recvConsult_spec (fun _ => true) false [1] 1 ⟨0, 0, 0⟩).1.2.2.2.1 rfl
  simpa using h

/-- C4 (code defect, evaluated at the failing input): a connection whose
accept-time `FailMaybe` signalled failure is closed and recorded as a
frontend drop, yet is still handed to a per-connection handler (the
returned flag is `true`), because the drop branch in `serve` does not
skip the spawn. -/
theorem serveAccepted_drop_still_handed :
    (serveAccepted true ⟨0, 0, 0⟩).2 = true
    ∧ (serveAccepted true ⟨0, 0, 0⟩).1 = ⟨0, 1, 0⟩ := by
  constructor <;> decide

/-- C5 (code defect, evaluated at the failing input): one connection dropped
at accept time is decremented twice (once by the drop, once by the handler
cleanup) but incremented once, driving the active-connection gauge to -1;
the gauge is already negative immediately after the drop decrement. -/
theorem dropped_conn_gauge_negative :
    (handleCleanup (serveAccepted true ⟨0, 0, 0⟩).1).activeConnCtr = -1
    ∧ (closeFrontendConn "drop" ⟨0, 0, 0⟩).activeConnCtr < 0 := by
  constructor <;> decide

/-- C6: a failure probability outside [0, 1] makes `SetFailureProbability`
return an error and leave the generator unchanged; a delay config with
probability outside [0, 1] or a negative delay bound makes `SetDelayConfig`
return an error and leave both stored delay fields unchanged. -/
theorem config_validation_rejects_out_of_range (fg : FailureGeneratorImpl)
    (p : ℚ) (c : DelayConfig) :
    ((p < 0 ∨ 1 < p) →
      (setFailureProbability fg p).1 = fg
        ∧ ((setFailureProbability fg p).2).isSome)
    ∧ ((c.delayProbability < 0 ∨ 1 < c.delayProbability ∨ c.maxDelayMicros < 0) →
      (setDelayConfig fg c).1 = fg ∧ ((setDelayConfig fg c).2).isSome) := by
  constructor
  · intro h
    have hcond : p < 0 ∨ p > 1 := h
    unfold setFailureProbability ppm
    rw [if_pos hcond]
    exact ⟨rfl, rfl⟩
  · intro h
    unfold setDelayConfig ppm
    by_cases hp : c.delayProbability < 0 ∨ c.delayProbability > 1
    · rw [if_pos hp]
      exact ⟨rfl, rfl⟩
    · rw [if_neg hp]
      have hm : c.maxDelayMicros < 0 := by
        rcases h with h1 | h2 | h3
        · exact absurd (Or.inl h1) hp
        · exact absurd (Or.inr h2) hp
        · exact h3
      simp [hm]

/-- Witness for C6: probability 2 and delay bound -5 are both rejected with
the state unchanged. -/
theorem config_validation_witness :
    ((setFailureProbability newFailureGenerator 2).1 = newFailureGenerator
      ∧ ((setFailureProbability newFailureGenerator 2).2).isSome)
    ∧ ((setDelayConfig newFailureGenerator ⟨-5, 1/2⟩).1 = newFailureGenerator
      ∧ ((setDelayConfig newFailureGenerator ⟨-5, 1/2⟩).2).isSome) :=
  ⟨(config_validation_rejects_out_of_range newFailureGenerator 2 ⟨-5, 1/2⟩).1
      (Or.inr (by norm_num)),
   (config_validation_rejects_out_of_range newFailureGenerator 2 ⟨-5, 1/2⟩).2
      (Or.inr (Or.inr (by norm_num)))⟩

/-- C7 (code defect, evaluated at the failing input): `SetDelayConfig`
accepts maxDelayMicros = 0 with delay probability 1, yet every subsequent
`FailMaybe` call reaches `rand.Int31n(0)` in the delay trial and aborts
with a runtime panic instead of returning normally. -/
theorem failMaybe_aborts_on_zero_max_delay :
    (setDelayConfig newFailureGenerator ⟨0, 1⟩).2 = none
    ∧ ∀ dDelay dMag dFail : Int,
        failMaybe (setDelayConfig newFailureGenerator ⟨0, 1⟩).1 dDelay dMag dFail
          = none := by
  constructor
  · simp only [setDelayConfig, ppm_one]
    rfl
  · intro dDelay dMag dFail
    have hfg : (setDelayConfig newFailureGenerator ⟨0, 1⟩).1 = ⟨0, 1000000, 0⟩ := by
      simp only [setDelayConfig, ppm_one]
      rfl
    rw [hfg]
    have hlt : dDelay % OneMillion < (1000000 : Int) := emod_million_lt dDelay
    simp [failMaybe, int31n, hlt]

/-- C8: in the copy loop, a timeout read error re-checks the termination
signals, a zero-length clean end-of-stream or zero-length successful read
returns success, and any other read error returns an error. -/
theorem readDispatch_spec (nr : Nat) :
    readDispatch nr ReadErr.timeout = CopyStep.recheck
    ∧ readDispatch 0 ReadErr.eof = CopyStep.done
    ∧ readDispatch 0 ReadErr.noErr = CopyStep.done
    ∧ readDispatch nr ReadErr.other = CopyStep.failed := by
  refine ⟨rfl, rfl, rfl, rfl⟩

/-- C9: after `BlockIncomingConns` (failure probability 1), every
`FailMaybe` of the accept-time generator fails, and every accept-time drop
records exactly one frontend drop; with failure ppm 0 a normally-returning
`FailMaybe` never fails; the default-constructed generator never fails and
never delays. -/
theorem blockIncomingConns_spec :
    (∀ dDelay dMag dFail : Int,
        failMaybe (blockIncomingConns newFailureGenerator) dDelay dMag dFail
          = some (none, true))
    ∧ (∀ st, (serveAccepted true st).1.frontendDropCtr = st.frontendDropCtr + 1)
    ∧ (∀ fg : FailureGeneratorImpl, fg.failurePpm = 0 →
        ∀ (dDelay dMag dFail : Int) (r : Option Int × Bool),
          failMaybe fg dDelay dMag dFail = some r → r.2 = false)
    ∧ (∀ dDelay dMag dFail : Int,
        failMaybe newFailureGenerator dDelay dMag dFail = some (none, false)) := by
  refine ⟨?_, ?_, ?_, ?_⟩
  · intro dDelay dMag dFail
    have hfg : blockIncomingConns newFailureGenerator = ⟨1000000, 0, 0⟩ := by
      unfold blockIncomingConns setFailureProbability
      rw [ppm_one]
      rfl
    rw [hfg]
    have h1 : ¬ (dDelay % OneMillion < (0 : Int)) :=
      not_lt.mpr (emod_million_nonneg dDelay)
    have h2 : dFail % OneMillion < (1000000 : Int) := emod_million_lt dFail
    simp [failMaybe, h1, h2]
  · intro st
    simp [serveAccepted, closeFrontendConn]
  · intro fg hppm dDelay dMag dFail r hr
    rw [failMaybe_snd fg dDelay dMag dFail r hr, hppm]
    simp [not_lt.mpr (emod_million_nonneg dFail)]
  · intro dDelay dMag dFail
    exact failMaybe_of_zero newFailureGenerator rfl rfl dDelay dMag dFail

/-- Witness for C9: the zero-ppm clause applied to the default generator at
concrete draws. -/
theorem blockIncomingConns_spec_witness :
    ((none : Option Int), false).2 = false :=
  blockIncomingConns_spec.2.2.1 newFailureGenerator rfl 0 0 0 (none, false)
    (by decide)

/-- C10: for p in [0, 1], `ppm` stores the truncation of p·10⁶; for
0 < p < 10⁻⁶ the stored failure ppm is 0 and `FailMaybe` thereafter never
fails (silent round-down to never-fail). -/
theorem subPpm_truncation (p : ℚ) :
    (0 ≤ p → p ≤ 1 → ppm p = Except.ok ⌊p * 1000000⌋)
    ∧ (0 < p → p < 1 / 1000000 →
        (setFailureProbability newFailureGenerator p).1.failurePpm = 0
        ∧ ∀ dDelay dMag dFail : Int,
            failMaybe (setFailureProbability newFailureGenerator p).1
              dDelay dMag dFail = some (none, false)) := by
  constructor
  · intro h0 h1
    unfold ppm
    rw [if_neg]
    push_neg
    exact ⟨h0, h1⟩
  · intro h0 h1
    have hlt1 : p * 1000000 < 1 := by
      have h2 : p * 1000000 < (1 / 1000000 : ℚ) * 1000000 :=
        mul_lt_mul_of_pos_right h1 (by norm_num)
      norm_num at h2
      exact h2
    have hfloor : ⌊p * 1000000⌋ = 0 := by
      rw [Int.floor_eq_zero_iff]
      exact ⟨by positivity, hlt1⟩
    have hle : p ≤ 1 :=
      le_of_lt (lt_of_lt_of_le h1 (by norm_num : (1 / 1000000 : ℚ) ≤ 1))
    have hppm : ppm p = Except.ok 0 := by
      unfold ppm
      rw [if_neg, hfloor]
      push_neg
      exact ⟨le_of_lt h0, hle⟩
    have hfg : (setFailureProbability newFailureGenerator p).1
        = newFailureGenerator := by
      unfold setFailureProbability
      rw [hppm]
      rfl
    refine ⟨?_, ?_⟩
    · rw [hfg]
      rfl
    · intro dDelay dMag dFail
      rw [hfg]
      exact failMaybe_of_zero newFailureGenerator rfl rfl dDelay dMag dFail

/-- Witness for C10: p = 1/2000000 is stored as ppm 0 and never fails. -/
theorem subPpm_truncation_witness :
    (setFailureProbability newFailureGenerator (1 / 2000000)).1.failurePpm = 0
    ∧ failMaybe (setFailureProbability newFailureGenerator (1 / 2000000)).1
        0 0 0 = some (none, false)
    ∧ ppm (1 / 2) = Except.ok 500000 := by
  have h := (subPpm_truncation (1 / 2000000)).2 (by norm_num) (by norm_num)
  refine ⟨h.1, h.2 0 0 0, ?_⟩
  have h2 := (subPpm_truncation (1 / 2)).1 (by norm_num) (by norm_num)
  rw [h2]
  norm_num

end FailureTestUtils
